import Mathlib

/-!
Verification of the jupyter-drives Drive Content Gateway
(src/jupyter_drives/manager.py) against its natural-language specification.

The manager is shallowly embedded: the registry of mounted drives, the remote
object stores, the gateway operations and the paginated provider client are
translated into pure Lean functions.  Backend calls are recorded in an explicit
trace so that claims about "no network call is attempted" are statable.
External Python libraries (obstore, boto3, base64, json) are not code of this
repository; the object-store primitives are modelled from the specification's
adapter contract and the codecs are parameters of the model.
-/

namespace JupyterDrives

/-- Bytes are modelled as lists of natural numbers, one per byte. -/
abbrev Bytes := List Nat

/-- Python str.strip(c) on a character list: remove matching characters from
the front, then from the back. -/
def stripEnds (p : Char → Bool) (l : List Char) : List Char :=
  (l.dropWhile p).rdropWhile p

/-- Python path.strip of the slash character, the normalization applied to
incoming paths throughout the manager. -/
def stripSlash (s : String) : String :=
  String.mk (stripEnds (fun c => c == '/') s.toList)

/-- Python value.strip of the double-quote character, used on link header
relation values. -/
def stripQuote (s : String) : String :=
  String.mk (stripEnds (fun c => c == '"') s.toList)

/-- Python str.startswith. -/
def pyStartsWith (s pre : String) : Bool :=
  pre.toList.isPrefixOf s.toList

/-- Python str.endswith. -/
def pyEndsWith (s suf : String) : Bool :=
  suf.toList.isSuffixOf s.toList

/-- Python c in s for a character and a string. -/
def pyContainsChar (s : String) (c : Char) : Bool :=
  s.toList.contains c

/-- Python str.upper for the ascii method names used here. -/
def pyUpper (s : String) : String :=
  String.mk (s.toList.map Char.toUpper)

/-- Python str.lower for the ascii method names used here. -/
def pyLower (s : String) : String :=
  String.mk (s.toList.map Char.toLower)

/-- Python str.strip() without arguments: remove whitespace from both ends. -/
def pyTrim (s : String) : String :=
  String.mk (stripEnds (fun c => c.isWhitespace) s.toList)

/-- Python str.split(sep) for a one-character separator, on character
lists. -/
def splitChar (sep : Char) : List Char → List (List Char)
  | [] => [[]]
  | c :: rest =>
    let r := splitChar sep rest
    if c == sep then [] :: r
    else
      match r with
      | [] => [[c]]
      | h :: t => (c :: h) :: t

/-- Python str.split(sep) for a one-character separator. -/
def pySplitChar (sep : Char) (s : String) : List String :=
  (splitChar sep s.toList).map String.mk

/-- Slice a list into consecutive chunks of the given size, as the Python
512-byte slicing loop and the chunked obstore streams do.  The chunks
concatenate back to the original list. -/
def chunksOf (n : Nat) : List α → List (List α)
  | [] => []
  | a :: l => (a :: l.take (n - 1)) :: chunksOf n (l.drop (n - 1))
termination_by l => l.length
decreasing_by simp; omega

/-- Python dict assignment d[k] = v, preserving insertion order: an existing
key is overwritten in place, a new key is appended at the end. -/
def aupdate (k : String) (v : α) : List (String × α) → List (String × α)
  | [] => [(k, v)]
  | (k2, v2) :: rest => if k2 = k then (k, v) :: rest else (k2, v2) :: aupdate k v rest

/-- Python dict.pop(k, None). -/
def aremove (k : String) : List (String × α) → List (String × α)
  | [] => []
  | (k2, v2) :: rest => if k2 = k then rest else (k2, v2) :: aremove k rest

/-- Python os.path.basename for forward-slash paths. -/
def basename (p : String) : String :=
  ((pySplitChar '/' p).getLast?).getD p

/-- Python os.path.splitext(p)[1]: the extension of the final path segment,
starting at its last dot, provided some non-dot character precedes that dot
within the segment. -/
def splitextExt (p : String) : String :=
  let base := (basename p).toList
  let dotIdxs := (List.range base.length).filter (fun i => base.getD i ' ' == '.')
  match dotIdxs.getLast? with
  | none => ""
  | some i =>
    if (base.take i).any (fun c => !(c == '.')) then String.mk (base.drop i) else ""

/-- The media extensions whose content is base64-encoded for transport in
get_contents (manager.py line 230). -/
def base64Exts : List String :=
  [".pdf", ".svg", ".tif", ".tiff", ".jpg", ".jpeg", ".gif", ".png", ".bmp", ".webp"]

/-- The recognized file extensions consulted by the empty-directory fallback
in get_contents (manager.py line 244). -/
def extList : List String :=
  [".R", ".bmp", ".csv", ".gif", ".html", ".ipynb", ".jl", ".jpeg", ".jpg",
   ".json", ".jsonl", ".md", ".ndjson", ".pdf", ".png", ".py", ".svg", ".tif",
   ".tiff", ".tsv", ".txt", ".webp", ".yaml", ".yml"]

/-- JSON values, as produced by json.loads. -/
inductive JVal where
  | jstr (s : String)
  | jnum (n : Nat)
  | jarr (xs : List JVal)
  | jobj (kvs : List (String × JVal))

/-- Python values that can arrive as the content argument of save_file. -/
inductive PyVal where
  | str (s : String)
  | bytes (b : Bytes)
  | json (j : JVal)

/-- External Python codecs used by the manager: UTF-8 decoding, base64, and
the json module.  These are imported library functions, not code of this
repository, so they are parameters of the model. -/
structure Codecs where
  utf8Decode : Bytes → Option String
  b64encode : Bytes → String
  b64decode : String → Bytes
  dumpsIndent2 : PyVal → String
  jsonLoads : String → Option JVal
  jsonEncode : JVal → String

/-- Python str.encode of a string as UTF-8 bytes. -/
def utf8Encode (s : String) : Bytes :=
  s.toUTF8.toList.map (fun b => b.toNat)

/-- The DrivesConfig fields consumed by the manager.  Credential fields are
optional; Python treats both None and the empty string as missing. -/
structure Config where
  provider : String
  access_key_id : Option String
  secret_access_key : Option String
  session_token : Option String
  api_base_url : String
deriving DecidableEq

/-- Python truthiness of an optional credential string. -/
def credPresent : Option String → Bool
  | none => false
  | some s => !(s == "")

/-- A remote object: its byte content and the metadata reported by head. -/
structure Obj where
  content : Bytes
  last_modified : String
  size : Nat
deriving DecidableEq

/-- A remote bucket: keys to objects, in listing order. -/
abbrev Store := List (String × Obj)

/-- The obstore store handle constructed by mount_drive, per provider. -/
inductive StoreVal where
  | s3 (url : String) (accessKey secretKey : Option String) (region : String)
  | gcs (url : String)
  | httpStore (url : String)
deriving DecidableEq

/-- One registry entry of self._content_managers: the store handle and the
resolved location. -/
structure Binding where
  store : StoreVal
  location : String
deriving DecidableEq

/-- The manager state: configuration, the drive registry, the remote buckets
keyed by drive name, the cached boto3 clients, and a clock used as the
last_modified stamp of newly written objects. -/
structure Mgr where
  config : Config
  registry : List (String × Binding)
  remotes : List (String × Store)
  s3clients : List String
  now : String

/-- Python exceptions that can be raised inside the gateway try blocks. -/
inductive Exc where
  | keyError (k : String)
  | notFound (path : String)
  | httpErrorExc (status : Nat) (reason : String)
  | nameError (n : String)
  | attributeError (n : String)
  | typeError (msg : String)
  | valueError (msg : String)
  | decodeError (msg : String)
deriving DecidableEq

/-- Python str(e) of an exception, as interpolated into wrapper messages. -/
def excMsg : Exc → String
  | .keyError k => k
  | .notFound p => "Object not found: " ++ p
  | .httpErrorExc s r => "HTTP " ++ toString s ++ ": " ++ r
  | .nameError n => "name " ++ n ++ " is not defined"
  | .attributeError n => "object has no attribute " ++ n
  | .typeError m => m
  | .valueError m => m
  | .decodeError m => m

/-- A tornado HTTPError surfaced to the hosting layer. -/
structure HErr where
  status : Nat
  reason : String
deriving DecidableEq

def contentsErr (m : String) : HErr :=
  ⟨400, "The following error occured when retrieving the contents: " ++ m⟩

def createObjErr (m : String) : HErr :=
  ⟨400, "The following error occured when creating the object: " ++ m⟩

def createDirMsg (m : String) : String :=
  "The following error occured when creating the directory: " ++ m

def saveErr (m : String) : HErr :=
  ⟨400, "The following error occured when saving the file: " ++ m⟩

def renameErr (m : String) : HErr :=
  ⟨400, "The following error occured when renaming the object: " ++ m⟩

def deleteErr (m : String) : HErr :=
  ⟨400, "The following error occured when deleting the object: " ++ m⟩

def copyErr (m : String) : HErr :=
  ⟨400, "The following error occured when copying the: " ++ m⟩

def locationMsg (m : String) : String :=
  "The following error occured when retriving the drive location: " ++ m

def mountErr (m : String) : HErr :=
  ⟨400, "The following error occured when mouting the drive: " ++ m⟩

def checkFileErr : HErr :=
  ⟨404, "Object does not already exist within drive."⟩

def unmountErr : HErr :=
  ⟨404, "Drive is not mounted or does not exist."⟩

/-- The payload handed to the put primitive by save_file and new_file. -/
inductive Payload where
  | bytes (b : Bytes)
  | pyObj (v : PyVal)

/-- One backend or network call, recorded in the operation trace. -/
inductive BCall where
  | list (drive pfx : String)
  | get (drive path : String)
  | head (drive path : String)
  | put (drive path : String) (payload : Payload) (mode : String)
  | delete (drive path : String)
  | copy (drive src dst : String)
  | rename (drive src dst : String)
  | s3listObjects (bucket pfx : String)
  | s3putObject (bucket key : String)
  | providerFetch (method url : String)

/-- One item of a listing result, and also the shape of the metadata dicts
returned by the mutating operations. -/
structure EntryMeta where
  path : String
  last_modified : String
  size : Nat
deriving DecidableEq

/-- The data field returned by get_contents: either a directory listing or a
single-file object. -/
inductive ContentsData where
  | listing (entries : List EntryMeta)
  | fileObj (path : String) (content : String) (last_modified : String) (size : Nat)

/-- The data dict returned by new_file. -/
structure FileOut where
  path : String
  content : String
  last_modified : String
  size : Nat
deriving DecidableEq

/-- The data dict returned by save_file; content echoes the request content. -/
structure SavedOut where
  path : String
  content : PyVal
  last_modified : String
  size : Nat

/-- The response wrapper: every gateway response is a dict with a data key. -/
structure RespOf (α : Type) where
  data : α

/-- Path normalization at the top of get_contents (manager.py lines 185-188):
the root path "/" becomes the empty string, any other path has its leading and
trailing slashes stripped. -/
def normalize_path (p : String) : String :=
  if p = "/" then "" else stripSlash p

/-- Modelled from the spec: the obstore list(path) primitive of the bound
backend adapter.  It returns the entries whose key extends the requested
path, chunked into record batches of the requested chunk size, which is 100
in get_contents. -/
def obsList (st : Store) (pfx : String) : List (List EntryMeta) :=
  chunksOf 100 ((st.filter (fun kv => pyStartsWith kv.1 pfx)).map
    (fun kv => ⟨kv.1, kv.2.last_modified, kv.2.size⟩))

/-- The listing loop of get_contents (manager.py lines 198-210): walks the
record batches, flips isDir and emptyDir on the first non-empty batch, and
accumulates every listed entry. -/
def listLoop : List (List EntryMeta) → Bool → Bool → List EntryMeta →
    Bool × Bool × List EntryMeta
  | [], isDir, emptyDir, data => (isDir, emptyDir, data)
  | b :: bs, isDir, emptyDir, data =>
    if isDir = false ∧ b ≠ [] then listLoop bs true false (data ++ b)
    else listLoop bs isDir emptyDir (data ++ b)

/-- Modelled from the spec: writing a payload through the put primitive.  A
byte buffer is written as is; a passthrough Python object is only writable
when it is already in byte form, anything else raises. -/
def payloadBytes : Payload → Except Exc Bytes
  | .bytes b => .ok b
  | .pyObj (.bytes b) => .ok b
  | .pyObj _ => .error (.typeError "object is not bytes-like")

/-- Helping function _check_object (manager.py lines 484-506): looks up the
drive location, caches a boto3 client per location, and issues a prefix
listing to decide whether the path denotes a directory.  Any internal failure
is wrapped into an HTTP 400 error by its own except clause.  When the
configured provider is not s3 the manager has no _s3_clients attribute and
the access raises AttributeError inside the try block. -/
def checkObject (m : Mgr) (drive path : String) :
    Except Exc Bool × Mgr × List BCall :=
  match List.lookup drive m.registry with
  | none => (.error (.httpErrorExc 400 (locationMsg (excMsg (.keyError drive)))), m, [])
  | some b =>
    if m.config.provider ≠ "s3" then
      (.error (.httpErrorExc 400 (locationMsg (excMsg (.attributeError "_s3_clients")))), m, [])
    else
      let m2 := if m.s3clients.contains b.location then m
        else { m with s3clients := m.s3clients ++ [b.location] }
      let st := (List.lookup drive m2.remotes).getD []
      let isDir := st.any (fun kv => pyStartsWith kv.1 (path ++ "/"))
      (.ok isDir, m2, [.s3listObjects drive (path ++ "/")])

/-- Helping function _create_empty_directory (manager.py lines 508-527):
creates the zero-byte directory marker object at key path ++ "/" through the
cached boto3 client.  Any internal failure is wrapped into an HTTP 400 error
by its own except clause. -/
def createEmptyDirectory (m : Mgr) (drive path : String) :
    Except Exc Unit × Mgr × List BCall :=
  match List.lookup drive m.registry with
  | none => (.error (.httpErrorExc 400 (createDirMsg (excMsg (.keyError drive)))), m, [])
  | some b =>
    if m.config.provider ≠ "s3" then
      (.error (.httpErrorExc 400 (createDirMsg (excMsg (.attributeError "_s3_clients")))), m, [])
    else
      let m2 := if m.s3clients.contains b.location then m
        else { m with s3clients := m.s3clients ++ [b.location] }
      let st := (List.lookup drive m2.remotes).getD []
      let st2 := aupdate (path ++ "/") ⟨[], m2.now, 0⟩ st
      (.ok (), { m2 with remotes := aupdate drive st2 m2.remotes },
        [.s3putObject drive (path ++ "/")])

/-- mount_drive (manager.py lines 123-159).  The already-mounted conflict is
raised inside the try block and therefore re-wrapped by the generic except
clause into the HTTP 400 mount failure; an unknown provider leaves the store
variable unbound, raising NameError, wrapped the same way. -/
def mount_drive (m : Mgr) (drive provider region : String) :
    Except HErr Unit × Mgr :=
  let inner : Except Exc Binding :=
    if (List.lookup drive m.registry).isNone then
      if provider = "s3" then
        .ok ⟨.s3 ("s3://" ++ drive ++ "/") m.config.access_key_id
          m.config.secret_access_key region, region⟩
      else if provider = "gcs" then .ok ⟨.gcs ("gs://" ++ drive ++ "/"), region⟩
      else if provider = "http" then .ok ⟨.httpStore drive, region⟩
      else .error (.nameError "store")
    else .error (.httpErrorExc 409 "Drive already mounted.")
  match inner with
  | .ok b => (.ok (), { m with registry := aupdate drive b m.registry })
  | .error e => (.error (mountErr (excMsg e)), m)

/-- unmount_drive (manager.py lines 161-176). -/
def unmount_drive (m : Mgr) (drive : String) : Except HErr Unit × Mgr :=
  if (List.lookup drive m.registry).isSome then
    (.ok (), { m with registry := aremove drive m.registry })
  else (.error unmountErr, m)

/-- The branch of get_contents reached when emptyDir stayed true (manager.py
lines 243-252): when the final path segment has no dot or an unrecognized
extension the data becomes an empty listing, and the diagnostic
_check_object call is issued and its result discarded. -/
def emptyFallback (m : Mgr) (drive path : String) (data : ContentsData)
    (tr : List BCall) : Except HErr (RespOf ContentsData) × Mgr × List BCall :=
  let name := basename path
  let data := if pyContainsChar name '.' = false ∨
      extList.contains (splitextExt name) = false then ContentsData.listing [] else data
  match checkObject m drive path with
  | (.error e, m2, tr2) => (.error (contentsErr (excMsg e)), m2, tr ++ tr2)
  | (.ok _chk, m2, tr2) => (.ok ⟨data⟩, m2, tr ++ tr2)

/-- get_contents (manager.py lines 178-263): normalize the path, list it on
the bound store, and return a directory listing when any entry shows up;
otherwise fetch the path as a chunked object with head metadata, base64 or
UTF-8 encoded by extension; the empty-directory fallback handles the rest.
Any exception is wrapped into the generic HTTP 400 contents error. -/
def get_contents (cs : Codecs) (m : Mgr) (drive path0 : String) :
    Except HErr (RespOf ContentsData) × Mgr × List BCall :=
  let path := normalize_path path0
  match List.lookup drive m.registry with
  | none => (.error (contentsErr (excMsg (.keyError drive))), m, [])
  | some _b =>
    let st := (List.lookup drive m.remotes).getD []
    let r := listLoop (obsList st path) false true []
    let isDir := r.1
    let emptyDir := r.2.1
    let entries := r.2.2
    let tr := [BCall.list drive path]
    if isDir = false ∧ path ≠ "" then
      match List.lookup path st with
      | none =>
        (.error (contentsErr (excMsg (.notFound path))), m, tr ++ [.get drive path])
      | some obj =>
        let chunks := chunksOf (5 * 1024 * 1024) obj.content
        let content := chunks.flatten
        let emptyDir := emptyDir && chunks.all (fun c => c.isEmpty)
        let tr := tr ++ [BCall.get drive path]
        match List.lookup path st with
        | none => (.error (contentsErr (excMsg (.notFound path))), m, tr ++ [.head drive path])
        | some meta =>
          let tr := tr ++ [BCall.head drive path]
          let processed : Except Exc String :=
            if base64Exts.contains (splitextExt path) then .ok (cs.b64encode content)
            else match cs.utf8Decode content with
              | none => .error (.decodeError "invalid utf-8 byte sequence")
              | some s => .ok s
          match processed with
          | .error e => (.error (contentsErr (excMsg e)), m, tr)
          | .ok pc =>
            let data := ContentsData.fileObj path pc meta.last_modified meta.size
            if emptyDir then emptyFallback m drive path data tr
            else (.ok ⟨data⟩, m, tr)
    else
      if emptyDir then emptyFallback m drive path (.listing entries) tr
      else (.ok ⟨.listing entries⟩, m, tr)

/-- new_file (manager.py lines 265-301): strip the path; a plain object (or a
directory on a non-s3 backend) is created by an empty overwrite put, while a
directory on an s3 backend is created through the out-of-band directory
marker; in either case a head on the stripped path follows and the response
reports its metadata.  Any exception is wrapped into the generic HTTP 400
object-creation error. -/
def new_file (m : Mgr) (drive path0 : String) (is_dir : Bool) :
    Except HErr (RespOf FileOut) × Mgr × List BCall :=
  let path := stripSlash path0
  if is_dir = false ∨ m.config.provider ≠ "s3" then
    match List.lookup drive m.registry with
    | none => (.error (createObjErr (excMsg (.keyError drive))), m, [])
    | some _b =>
      let st := (List.lookup drive m.remotes).getD []
      let st2 := aupdate path ⟨[], m.now, 0⟩ st
      let m2 := { m with remotes := aupdate drive st2 m.remotes }
      let tr := [BCall.put drive path (.bytes []) "overwrite"]
      match List.lookup path st2 with
      | none => (.error (createObjErr (excMsg (.notFound path))), m2, tr ++ [.head drive path])
      | some o =>
        (.ok ⟨⟨path, "", o.last_modified, o.size⟩⟩, m2, tr ++ [.head drive path])
  else
    match createEmptyDirectory m drive path with
    | (.error e, m2, tr) => (.error (createObjErr (excMsg e)), m2, tr)
    | (.ok _, m2, tr) =>
      let st2 := (List.lookup drive m2.remotes).getD []
      match List.lookup path st2 with
      | none => (.error (createObjErr (excMsg (.notFound path))), m2, tr ++ [.head drive path])
      | some o =>
        (.ok ⟨⟨path, "", o.last_modified, o.size⟩⟩, m2, tr ++ [.head drive path])

/-- The format negotiation of save_file (manager.py lines 319-338): json
contents are dumped with 2-space indentation and UTF-8 encoded; base64
contents with a base64 content format or a PDF content type are
base64-decoded into 512-byte slices joined back into one buffer; text
contents are UTF-8 encoded; anything else passes through unmodified. -/
def formatContent (cs : Codecs) (content : PyVal)
    (options_format content_format content_type : String) : Except Exc Payload :=
  if options_format = "json" then
    .ok (.bytes (utf8Encode (cs.dumpsIndent2 content)))
  else if options_format = "base64" ∧
      (content_format = "base64" ∨ content_type = "PDF") then
    match content with
    | .str s =>
      let byteChars := cs.b64decode s
      let byteArrays := chunksOf 512 byteChars
      .ok (.bytes byteArrays.flatten)
    | _ => .error (.typeError "b64decode argument is not a string")
  else if options_format = "text" then
    match content with
    | .str s => .ok (.bytes (utf8Encode s))
    | _ => .error (.attributeError "encode")
  else .ok (.pyObj content)

/-- save_file (manager.py lines 303-358): strip the path, transcode the
content through the format negotiation, then overwrite-put and head.  Any
exception is wrapped into the generic HTTP 400 save error. -/
def save_file (cs : Codecs) (m : Mgr) (drive path0 : String) (content : PyVal)
    (options_format content_format content_type : String) :
    Except HErr (RespOf SavedOut) × Mgr × List BCall :=
  let path := stripSlash path0
  match formatContent cs content options_format content_format content_type with
  | .error e => (.error (saveErr (excMsg e)), m, [])
  | .ok payload =>
    match List.lookup drive m.registry with
    | none => (.error (saveErr (excMsg (.keyError drive))), m, [])
    | some _b =>
      match payloadBytes payload with
      | .error e => (.error (saveErr (excMsg e)), m, [.put drive path payload "overwrite"])
      | .ok bs =>
        let st := (List.lookup drive m.remotes).getD []
        let st2 := aupdate path ⟨bs, m.now, bs.length⟩ st
        let m2 := { m with remotes := aupdate drive st2 m.remotes }
        let tr := [BCall.put drive path payload "overwrite"]
        match List.lookup path st2 with
        | none => (.error (saveErr (excMsg (.notFound path))), m2, tr ++ [.head drive path])
        | some o =>
          (.ok ⟨⟨path, content, o.last_modified, o.size⟩⟩, m2, tr ++ [.head drive path])

/-- rename_file (manager.py lines 360-390): only the source path is stripped;
the destination is handed to the rename primitive and echoed back verbatim.
Any exception is wrapped into the generic HTTP 400 rename error. -/
def rename_file (m : Mgr) (drive path0 newPath : String) :
    Except HErr (RespOf EntryMeta) × Mgr × List BCall :=
  let path := stripSlash path0
  match List.lookup drive m.registry with
  | none => (.error (renameErr (excMsg (.keyError drive))), m, [])
  | some _b =>
    let st := (List.lookup drive m.remotes).getD []
    match List.lookup path st with
    | none => (.error (renameErr (excMsg (.notFound path))), m, [.rename drive path newPath])
    | some obj =>
      let st2 := aupdate newPath obj (aremove path st)
      let m2 := { m with remotes := aupdate drive st2 m.remotes }
      let tr := [BCall.rename drive path newPath]
      match List.lookup newPath st2 with
      | none => (.error (renameErr (excMsg (.notFound newPath))), m2, tr ++ [.head drive newPath])
      | some o =>
        (.ok ⟨⟨newPath, o.last_modified, o.size⟩⟩, m2, tr ++ [.head drive newPath])

/-- delete_file (manager.py lines 392-410): strip the path and dispatch to
the delete primitive.  Any exception, including the missing-key failure, is
wrapped into the generic HTTP 400 delete error. -/
def delete_file (m : Mgr) (drive path0 : String) :
    Except HErr Unit × Mgr × List BCall :=
  let path := stripSlash path0
  match List.lookup drive m.registry with
  | none => (.error (deleteErr (excMsg (.keyError drive))), m, [])
  | some _b =>
    let st := (List.lookup drive m.remotes).getD []
    match List.lookup path st with
    | none => (.error (deleteErr (excMsg (.notFound path))), m, [.delete drive path])
    | some _o =>
      let m2 := { m with remotes := aupdate drive (aremove path st) m.remotes }
      (.ok (), m2, [.delete drive path])

/-- check_file (manager.py lines 412-429): strip the path and head it; any
exception at all yields the HTTP 404 existence error. -/
def check_file (m : Mgr) (drive path0 : String) :
    Except HErr Unit × Mgr × List BCall :=
  let path := stripSlash path0
  match List.lookup drive m.registry with
  | none => (.error checkFileErr, m, [])
  | some _b =>
    let st := (List.lookup drive m.remotes).getD []
    match List.lookup path st with
    | none => (.error checkFileErr, m, [.head drive path])
    | some _o => (.ok (), m, [.head drive path])

/-- copy_file (manager.py lines 431-461): only the source path is stripped;
the destination is handed to the copy primitive and echoed back verbatim.
Any exception is wrapped into the generic HTTP 400 copy error. -/
def copy_file (m : Mgr) (drive path0 toPath : String) :
    Except HErr (RespOf EntryMeta) × Mgr × List BCall :=
  let path := stripSlash path0
  match List.lookup drive m.registry with
  | none => (.error (copyErr (excMsg (.keyError drive))), m, [])
  | some _b =>
    let st := (List.lookup drive m.remotes).getD []
    match List.lookup path st with
    | none => (.error (copyErr (excMsg (.notFound path))), m, [.copy drive path toPath])
    | some obj =>
      let st2 := aupdate toPath obj st
      let m2 := { m with remotes := aupdate drive st2 m.remotes }
      let tr := [BCall.copy drive path toPath]
      match List.lookup toPath st2 with
      | none => (.error (copyErr (excMsg (.notFound toPath))), m2, tr ++ [.head drive toPath])
      | some o =>
        (.ok ⟨⟨toPath, o.last_modified, o.size⟩⟩, m2, tr ++ [.head drive toPath])

/-- Parse the semicolon-separated parts after the first of one link header
entry into its metadata pairs (manager.py lines 620-623).  A part that does
not split on the equals sign into exactly a key and a value raises ValueError
at the tuple unpacking. -/
def linkMeta : List String → Except Exc (List (String × String))
  | [] => .ok []
  | a :: rest =>
    match pySplitChar '=' (pyTrim a) with
    | [k, v] => (linkMeta rest).map (fun ps => (pyTrim k, stripQuote (pyTrim v)) :: ps)
    | _ => .error (.valueError "not enough values to unpack")

/-- Walk the comma-separated link header entries in order and return the url
of the first entry whose rel metadata equals next, with its surrounding angle
brackets stripped (manager.py lines 616-626). -/
def linkEntriesNext : List String → Except Exc (Option String)
  | [] => .ok none
  | e :: rest =>
    let args := pySplitChar ';' (pyTrim e)
    let data := args.headD ""
    match linkMeta args.tail with
    | .error exc => .error exc
    | .ok meta =>
      if (List.lookup "rel" meta.reverse).getD "" = "next" then
        .ok (some (String.mk ((data.toList.drop 1).dropLast)))
      else linkEntriesNext rest

/-- The next url advertised by an optional link header. -/
def linkNextUrl : Option String → Except Exc (Option String)
  | none => .ok none
  | some link => linkEntriesNext (pySplitChar ',' link)

/-- jupyter_server url_path_join for two pieces. -/
def urlPathJoin (a b : String) : String :=
  let initial := pyStartsWith a "/"
  let final := pyEndsWith b "/"
  let sa := stripSlash a
  let sb := stripSlash b
  let core := if sa = "" then sb else if sb = "" then sa else sa ++ "/" ++ sb
  let r := (if initial then "/" else "") ++ core ++ (if final then "/" else "")
  if r = "//" then "/" else r

/-- Endpoint resolution (manager.py lines 582-583): a url that neither starts
with the configured base url nor matches the absolute http regex is joined
onto the base url. -/
def resolveUrl (cfg : Config) (url : String) : String :=
  if pyStartsWith url cfg.api_base_url = false ∧
      pyStartsWith url "http:" = false ∧ pyStartsWith url "https:" = false then
    urlPathJoin cfg.api_base_url url
  else url

/-- tornado url_concat: append the query parameters to the url. -/
def urlConcat (url : String) (ps : List (String × String)) : String :=
  if ps = [] then url
  else url ++ "?" ++ String.intercalate "&" (ps.map (fun kv => kv.1 ++ "=" ++ kv.2))

/-- One simulated transport response for the provider client: a successful
response carries its decoded body (none when the body bytes are not valid
UTF-8) and an optional link header; an HTTP-level client error carries the
status and the optional error body; anything else is a transport failure. -/
inductive FetchOutcome where
  | ok (body : Option String) (link : Option String)
  | clientError (code : Nat) (errBody : Option String)
  | transportError (msg : String)

/-- The result of _call_provider: a decoded JSON body, or raw text when
load_json is false. -/
inductive CallRes where
  | json (v : JVal)
  | text (s : String)

/-- Python list coercion before the pagination concatenation: a list stays as
it is, any other value is wrapped into a one-element list. -/
def toElems : JVal → List JVal
  | .jarr xs => xs
  | v => [v]

/-- Python isinstance of list. -/
def isArr : JVal → Bool
  | .jarr _ => true
  | _ => false

/-- A Python str rendering of a JSON value, for message interpolation. -/
def jvalStr : JVal → String
  | .jstr s => s
  | .jnum n => toString n
  | .jarr _ => "[list]"
  | .jobj _ => "[dict]"

/-- Extraction of the error message from an HTTP client error response
(manager.py lines 654-663): the message field of a JSON dict body when it is
present and decodable, else the str of the error.  A body that decodes to a
non-dict JSON value raises AttributeError at the .get call, uncaught inside
the handler. -/
def clientMessage (cs : Codecs) (code : Nat) (errBody : Option String) :
    Except Exc String :=
  let errorBody := errBody.getD "\x7b\x7d"
  let strE := "HTTP " ++ toString code
  match cs.jsonLoads errorBody with
  | none => .ok strE
  | some (.jobj kvs) =>
    .ok ((List.lookup "message" ((kvs.map (fun kv => (kv.1, jvalStr kv.2))).reverse)).getD strE)
  | some _ => .error (.attributeError "get")

/-- _call_provider (manager.py lines 529-678): check the three credentials,
prepare body, headers, url and the default per_page pagination parameter,
then fetch.  For a JSON response the link header is inspected and the first
rel next url is followed recursively with pagination disabled, the current
page and the recursive result being coerced to lists and concatenated.  The
chain argument is the sequence of transport responses the remote delivers,
consumed one per request, so recursion is structural on it.  The
per_page_argument property is the constant pair per_page 100, never None. -/
def callProvider (cs : Codecs) (cfg : Config) (chain : List FetchOutcome)
    (url : String) (loadJson : Bool) (method : String) (body : Option JVal)
    (params : Option (List (String × String)))
    (headers : Option (List (String × String))) (hasPagination : Bool) :
    Except HErr CallRes × List BCall :=
  if credPresent cfg.session_token = false then
    (.error ⟨400, "No session token specified. Please set DriversConfig.session_token in your user jupyter_server_config file."⟩, [])
  else if credPresent cfg.access_key_id = false then
    (.error ⟨400, "No access key id specified. Please set DriversConfig.access_key_id in your user jupyter_server_config file."⟩, [])
  else if credPresent cfg.secret_access_key = false then
    (.error ⟨400, "No secret access key specified. Please set DriversConfig.secret_access_key in your user jupyter_server_config file."⟩, [])
  else
    let headers := if body.isSome then
        some (aupdate "Content-Type" "application/json" (headers.getD [])) else headers
    let bodyStr := body.map cs.jsonEncode
    let url := resolveUrl cfg url
    let params := if loadJson ∧ hasPagination ∧ pyLower method = "get" then
        some (aupdate "per_page" "100" (params.getD [])) else params
    let url := match params with
      | none => url
      | some ps => urlConcat url ps
    let tr0 := [BCall.providerFetch (pyUpper method) url]
    match chain with
    | [] => (.error ⟨500, "Unknown error in " ++ url ++ ": no response"⟩, tr0)
    | outcome :: rest =>
      match outcome with
      | .transportError msg =>
        (.error ⟨500, "Unknown error in " ++ url ++ ": " ++ msg⟩, tr0)
      | .clientError code errBody =>
        match clientMessage cs code errBody with
        | .error e => (.error ⟨500, excMsg e⟩, tr0)
        | .ok msg => (.error ⟨code, "Invalid response in " ++ url ++ ": " ++ msg⟩, tr0)
      | .ok obody link =>
        match obody with
        | none => (.error ⟨400, "Invalid response in " ++ url ++ ": invalid utf-8"⟩, tr0)
        | some result =>
          if loadJson then
            match linkNextUrl link with
            | .error e => (.error ⟨500, "Unknown error in " ++ url ++ ": " ++ excMsg e⟩, tr0)
            | .ok nextUrl =>
              match cs.jsonLoads result with
              | none => (.error ⟨400, "Invalid response in " ++ url ++ ": invalid json"⟩, tr0)
              | some newV =>
                match nextUrl with
                | some nu =>
                  match callProvider cs cfg rest nu loadJson method
                      (bodyStr.map JVal.jstr) none headers false with
                  | (.error e, trN) =>
                    (.error ⟨500, "Unknown error in " ++ url ++ ": HTTP " ++
                      toString e.status ++ ": " ++ e.reason⟩, tr0 ++ trN)
                  | (.ok (.text t), trN) =>
                    (.ok (.json (.jarr (toElems newV ++ [JVal.jstr t]))), tr0 ++ trN)
                  | (.ok (.json nextV), trN) =>
                    (.ok (.json (.jarr (toElems newV ++ toElems nextV))), tr0 ++ trN)
                | none =>
                  if (loadJson ∧ hasPagination ∧ pyLower method = "get") ∧ isArr newV = false then
                    (.ok (.json (.jarr [newV])), tr0)
                  else (.ok (.json newV), tr0)
          else (.ok (.text result), tr0)

/-! Helper lemmas about the primitive list and string operations. -/

theorem mk_toList (l : List Char) : (String.mk l).toList = l := rfl

theorem toList_append (s t : String) : (s ++ t).toList = s.toList ++ t.toList :=
  String.data_append s t

theorem chunksOf_flatten (n : Nat) : ∀ (l : List α), (chunksOf n l).flatten = l
  | [] => by simp [chunksOf]
  | a :: l => by
    rw [chunksOf]
    simp [chunksOf_flatten n (l.drop (n - 1))]
termination_by l => l.length
decreasing_by simp; omega

theorem chunksOf_any_ne (n : Nat) (a : α) (t : List α) :
    ((chunksOf n (a :: t)).any (fun b => !b.isEmpty)) = true := by
  simp [chunksOf]

theorem stripEnds_head_not (p : Char → Bool) (l : List Char) (a : Char) (t : List Char)
    (h : stripEnds p l = a :: t) : p a = false := by
  have hpre : (l.dropWhile p).rdropWhile p <+: l.dropWhile p := List.rdropWhile_prefix p _
  rw [stripEnds] at h
  rw [h] at hpre
  obtain ⟨rest, hrest⟩ := hpre
  have hne : l.dropWhile p ≠ [] := by rw [← hrest]; simp
  have hnp := List.head_dropWhile_not p l hne
  have hhead : (l.dropWhile p).head hne = a := by
    have : l.dropWhile p = a :: (t ++ rest) := by rw [← hrest]; simp
    simp [this]
  rw [hhead] at hnp
  simpa using hnp

theorem stripEnds_getLast?_not (p : Char → Bool) (l : List Char) (a : Char)
    (h : (stripEnds p l).getLast? = some a) : p a = false := by
  have hne : stripEnds p l ≠ [] := by
    intro hn; rw [hn] at h; simp at h
  have h2 := List.rdropWhile_last_not p (l.dropWhile p) (by simpa [stripEnds] using hne)
  rw [List.getLast?_eq_getLast _ hne] at h
  have ha : (stripEnds p l).getLast hne = a := by simpa using h
  rw [← ha]
  simpa [stripEnds] using h2

theorem stripEnds_idem (p : Char → Bool) (l : List Char) :
    stripEnds p (stripEnds p l) = stripEnds p l := by
  have h1 : (stripEnds p l).dropWhile p = stripEnds p l := by
    cases h : stripEnds p l with
    | nil => simp
    | cons a t =>
      have := stripEnds_head_not p l a t h
      simp [List.dropWhile_cons, this]
  conv_lhs => rw [stripEnds, h1]
  rw [stripEnds, List.rdropWhile_idempotent]

theorem stripSlash_idem (s : String) : stripSlash (stripSlash s) = stripSlash s := by
  simp [stripSlash, mk_toList, stripEnds_idem]

theorem stripSlash_root : stripSlash "/" = "" := by decide

theorem normalize_path_eq_stripSlash (s : String) : normalize_path s = stripSlash s := by
  by_cases h : s = "/"
  · subst h; simp [normalize_path, stripSlash_root]
  · simp [normalize_path, h]

theorem normalize_path_idem (s : String) :
    normalize_path (normalize_path s) = normalize_path s := by
  rw [normalize_path_eq_stripSlash, normalize_path_eq_stripSlash, stripSlash_idem]

theorem stripSlash_no_leading (s : String) : pyStartsWith (stripSlash s) "/" = false := by
  rw [pyStartsWith, stripSlash, mk_toList]
  cases h : stripEnds (fun c => c == '/') s.toList with
  | nil => simp [List.isPrefixOf]
  | cons a t =>
    have ha := stripEnds_head_not _ _ _ _ h
    simp only [List.isPrefixOf]
    simp [List.isPrefixOf]
    intro hc
    subst hc
    simp at ha

theorem isPrefixOfSlashRev_false (l : List Char)
    (hl : ∀ a, l.getLast? = some a → (a == '/') = false) :
    ("/".toList).isPrefixOf l.reverse = false := by
  cases hr : l.reverse with
  | nil => rfl
  | cons a t =>
    have hsome : l.getLast? = some a := by rw [← List.head?_reverse, hr]; rfl
    have ha := hl a hsome
    have hne : ('/' : Char) ≠ a := by
      intro hc; rw [← hc] at ha; simp at ha
    have hb : ('/' == a) = false := beq_eq_false_iff_ne.mpr hne
    show (('/' == a) && List.isPrefixOf [] t) = false
    simp [hb]

theorem stripSlash_no_trailing (s : String) : pyEndsWith (stripSlash s) "/" = false := by
  rw [pyEndsWith, stripSlash, mk_toList, List.isSuffixOf]
  exact isPrefixOfSlashRev_false _ (fun a ha => stripEnds_getLast?_not _ _ a ha)

theorem lookup_aupdate_self (k : String) (v : α) (l : List (String × α)) :
    List.lookup k (aupdate k v l) = some v := by
  induction l with
  | nil => simp [aupdate, List.lookup]
  | cons kv rest ih =>
    obtain ⟨k2, v2⟩ := kv
    by_cases h : k2 = k
    · subst h; simp [aupdate, List.lookup]
    · have hb : (k == k2) = false := beq_eq_false_iff_ne.mpr (Ne.symm h)
      simp [aupdate, h, List.lookup, hb, ih]

theorem lookup_aupdate_ne (k1 k : String) (h : k1 ≠ k) (v : α)
    (l : List (String × α)) : List.lookup k1 (aupdate k v l) = List.lookup k1 l := by
  have hb : (k1 == k) = false := beq_eq_false_iff_ne.mpr h
  induction l with
  | nil => simp [aupdate, List.lookup, hb]
  | cons kv rest ih =>
    obtain ⟨k2, v2⟩ := kv
    by_cases h2 : k2 = k
    · subst h2
      simp [aupdate, List.lookup, hb]
    · by_cases h3 : k1 = k2
      · subst h3; simp [aupdate, h2, List.lookup]
      · have hb3 : (k1 == k2) = false := beq_eq_false_iff_ne.mpr h3
        simp [aupdate, h2, List.lookup, hb3, ih]

theorem mem_aupdate (k : String) (v : α) (l : List (String × α)) :
    (k, v) ∈ aupdate k v l := by
  induction l with
  | nil => simp [aupdate]
  | cons kv rest ih =>
    obtain ⟨k2, v2⟩ := kv
    by_cases h : k2 = k
    · subst h; simp [aupdate]
    · simp [aupdate, h, ih]

theorem listLoop_true (bs : List (List EntryMeta)) (e : Bool) (data : List EntryMeta) :
    listLoop bs true e data = (true, e, data ++ bs.flatten) := by
  induction bs generalizing data with
  | nil => simp [listLoop]
  | cons b bs ih => simp [listLoop, ih]

theorem listLoop_start (bs : List (List EntryMeta)) (data : List EntryMeta) :
    listLoop bs false true data =
      (bs.any (fun b => !b.isEmpty), !(bs.any (fun b => !b.isEmpty)), data ++ bs.flatten) := by
  induction bs generalizing data with
  | nil => simp [listLoop]
  | cons b bs ih =>
    by_cases hb : b = []
    · subst hb
      simpa [listLoop] using ih data
    · simp [listLoop, hb, listLoop_true, List.isEmpty_iff]

theorem pyStartsWith_append (s t : String) : pyStartsWith (s ++ t) s = true := by
  rw [pyStartsWith, toList_append]
  simp

theorem append_slash_ne (s : String) : s ++ "/" ≠ s := by
  intro h
  have hlen := congrArg String.length h
  rw [String.length_append] at hlen
  have h1 : "/".length = 1 := rfl
  rw [h1] at hlen
  omega

theorem normalize_path_stripSlash (s : String) :
    normalize_path (stripSlash s) = stripSlash s := by
  rw [normalize_path_eq_stripSlash, stripSlash_idem]

/-! Concrete fixtures used by the closed theorems and the witnesses. -/

/-- A concrete configuration with all three credentials present. -/
def cfg0 : Config :=
  ⟨"s3", some "AKIA", some "SECRET", some "TOKEN", "https://api.example.com"⟩

/-- Concrete codecs for evaluating the model on closed inputs. -/
def wCodecs : Codecs :=
  ⟨fun b => if b = [] then some "" else none,
   fun _ => "base64data",
   fun s => if s = "QUJD" then [65, 66, 67] else [],
   fun _ => "dumped",
   fun s =>
     if s = "p1" then some (.jarr [.jnum 1, .jnum 2])
     else if s = "p2" then some (.jarr [.jnum 3])
     else if s = "p3" then some (.jarr [.jnum 4, .jnum 5])
     else none,
   fun _ => "encoded"⟩

/-- A concrete manager with valid s3 credentials and an empty registry. -/
def mgr0 : Mgr := ⟨cfg0, [], [], [], "2026-01-01T00:00:00+00:00"⟩

/-- The binding mount_drive records for the drive bucket-a in eu-north-1. -/
def bindA : Binding :=
  ⟨.s3 "s3://bucket-a/" (some "AKIA") (some "SECRET") "eu-north-1", "eu-north-1"⟩

/-- A concrete manager with the drive bucket-a mounted and one remote object
file.txt of two bytes. -/
def mgrMounted : Mgr :=
  ⟨cfg0, [("bucket-a", bindA)],
   [("bucket-a", [("file.txt", ⟨[104, 105], "2026-01-01T00:00:00+00:00", 2⟩)])],
   [], "2026-02-02T00:00:00+00:00"⟩

/-! C9 -/

/-- C9: path normalization is idempotent and collapses slashes uniformly.
Leading and trailing slashes are stripped before dispatch (the normalized
path neither starts nor ends with a slash, and the plain strip applied by
the other operations agrees with the get_contents normalization on every
input), the root path consisting of exactly one slash normalizes to the
empty string, applying normalization twice equals applying it once, and the
four sample inputs all normalize to a/b. -/
theorem c9_normalization_idempotent :
    (∀ s, normalize_path (normalize_path s) = normalize_path s) ∧
    normalize_path "/" = "" ∧
    (∀ s, normalize_path s = stripSlash s) ∧
    (∀ s, pyStartsWith (normalize_path s) "/" = false ∧
      pyEndsWith (normalize_path s) "/" = false) ∧
    normalize_path "/a/b/" = "a/b" ∧ normalize_path "a/b/" = "a/b" ∧
    normalize_path "/a/b" = "a/b" ∧ normalize_path "a/b" = "a/b" := by
  refine ⟨normalize_path_idem, by decide, normalize_path_eq_stripSlash, ?_,
    by decide, by decide, by decide, by decide⟩
  intro s
  rw [normalize_path_eq_stripSlash]
  exact ⟨stripSlash_no_leading s, stripSlash_no_trailing s⟩

/-! C1 -/

/-- C1: mounting bucket-a twice.  The second call does fail and the first
binding is left unchanged (same store handle and location), but the failure
is not the 409 AlreadyMounted conflict: the conflict raised inside the try
block is caught by the generic except clause and re-wrapped as the HTTP 400
generic mount failure, so the surfaced error has status 400, not 409. -/
theorem c1_second_mount_conflict_swallowed :
    (mount_drive mgr0 "bucket-a" "s3" "eu-north-1").1 = .ok () ∧
    (mount_drive mgr0 "bucket-a" "s3" "eu-north-1").2.registry = [("bucket-a", bindA)] ∧
    (mount_drive (mount_drive mgr0 "bucket-a" "s3" "eu-north-1").2
        "bucket-a" "s3" "us-east-1").1 =
      .error (mountErr (excMsg (.httpErrorExc 409 "Drive already mounted."))) ∧
    (mountErr (excMsg (.httpErrorExc 409 "Drive already mounted."))).status = 400 ∧
    (mount_drive (mount_drive mgr0 "bucket-a" "s3" "eu-north-1").2
        "bucket-a" "s3" "us-east-1").2.registry = [("bucket-a", bindA)] :=
  ⟨rfl, rfl, rfl, rfl, rfl⟩

/-! C3 -/

/-- C3 counterexample: deleting the nonexistent key nope on the mounted drive
bucket-a fails with the generic 400 DeleteError wrapper around the adapter
missing-key failure, not with the 404 NotFound error kind used by
check_file. -/
theorem c3_delete_missing_counterexample :
    (delete_file mgrMounted "bucket-a" "nope").1 =
      .error (deleteErr (excMsg (.notFound "nope"))) ∧
    (deleteErr (excMsg (.notFound "nope"))).status = 400 ∧
    (deleteErr (excMsg (.notFound "nope"))).status ≠ checkFileErr.status :=
  ⟨rfl, rfl, by decide⟩

/-- C3 amended: for every mounted drive and every path whose stripped form is
not a key of the backing store, delete_file attempts the delete and wraps the
adapter missing-key failure into the generic HTTP 400 DeleteError; it does
not surface the NotFoundError kind. -/
theorem c3_delete_missing_generic (m : Mgr) (drive path : String)
    (hm : (List.lookup drive m.registry).isSome = true)
    (hp : List.lookup (stripSlash path)
      ((List.lookup drive m.remotes).getD []) = none) :
    delete_file m drive path =
      (.error (deleteErr (excMsg (.notFound (stripSlash path)))), m,
        [.delete drive (stripSlash path)]) := by
  obtain ⟨b, hb⟩ := Option.isSome_iff_exists.mp hm
  simp [delete_file, hb, hp]

/-- C3 witness: the amended theorem applied to the concrete mounted manager
and the missing key nope. -/
theorem c3_delete_missing_generic_witness :
    delete_file mgrMounted "bucket-a" "nope" =
      (.error (deleteErr (excMsg (.notFound (stripSlash "nope")))), mgrMounted,
        [.delete "bucket-a" (stripSlash "nope")]) :=
  c3_delete_missing_generic mgrMounted "bucket-a" "nope" rfl rfl

/-! C4 -/

/-- C4 counterexample: get_contents on the unmounted drive ghost fails with
the generic 400 contents wrapper around the registry KeyError, which is not
the 404 NotFound/NotMounted error kind the claim requires. -/
theorem c4_unmounted_not_notfound_counterexample :
    (get_contents wCodecs mgr0 "ghost" "file.txt").1 =
      .error (contentsErr (excMsg (.keyError "ghost"))) ∧
    (contentsErr (excMsg (.keyError "ghost"))).status = 400 ∧
    (contentsErr (excMsg (.keyError "ghost"))).status ≠ 404 :=
  ⟨rfl, rfl, by decide⟩

/-- C4 amended: every content operation against a drive with no binding in
the registry fails before any backend or network call: the returned trace is
empty and the state is unchanged.  check_file fails with the 404 existence
error, while the six other operations wrap the registry KeyError into their
operation-specific generic HTTP 400 error. -/
theorem c4_unmounted_fail_fast (cs : Codecs) (m : Mgr) (drive : String)
    (h : List.lookup drive m.registry = none)
    (path newPath toPath : String) (content : PyVal)
    (optFmt cFmt cType : String) (is_dir : Bool) :
    get_contents cs m drive path =
      (.error (contentsErr (excMsg (.keyError drive))), m, []) ∧
    (∃ msg, new_file m drive path is_dir = (.error (createObjErr msg), m, [])) ∧
    (∃ msg, save_file cs m drive path content optFmt cFmt cType =
      (.error (saveErr msg), m, [])) ∧
    rename_file m drive path newPath =
      (.error (renameErr (excMsg (.keyError drive))), m, []) ∧
    delete_file m drive path =
      (.error (deleteErr (excMsg (.keyError drive))), m, []) ∧
    copy_file m drive path toPath =
      (.error (copyErr (excMsg (.keyError drive))), m, []) ∧
    check_file m drive path = (.error checkFileErr, m, []) := by
  refine ⟨?_, ?_, ?_, ?_, ?_, ?_, ?_⟩
  · simp [get_contents, h]
  · by_cases hd : is_dir = false ∨ m.config.provider ≠ "s3"
    · exact ⟨excMsg (.keyError drive), by simp [new_file, hd, h]⟩
    · exact ⟨excMsg (.httpErrorExc 400 (createDirMsg (excMsg (.keyError drive)))),
        by simp [new_file, hd, createEmptyDirectory, h]⟩
  · cases hf : formatContent cs content optFmt cFmt cType with
    | error e => exact ⟨excMsg e, by simp [save_file, hf]⟩
    | ok payload => exact ⟨excMsg (.keyError drive), by simp [save_file, hf, h]⟩
  · simp [rename_file, h]
  · simp [delete_file, h]
  · simp [copy_file, h]
  · simp [check_file, h]

/-- C4 witness: the amended theorem applied to the concrete manager with an
empty registry and the drive ghost. -/
theorem c4_unmounted_fail_fast_witness :
    List.lookup "ghost" mgr0.registry = none ∧
    get_contents wCodecs mgr0 "ghost" "a.txt" =
      (.error (contentsErr (excMsg (.keyError "ghost"))), mgr0, []) ∧
    check_file mgr0 "ghost" "a.txt" = (.error checkFileErr, mgr0, []) :=
  ⟨rfl,
   (c4_unmounted_fail_fast wCodecs mgr0 "ghost" rfl "a.txt" "b.txt" "c.txt"
     (.str "x") "text" "text" "file" false).1,
   (c4_unmounted_fail_fast wCodecs mgr0 "ghost" rfl "a.txt" "b.txt" "c.txt"
     (.str "x") "text" "text" "file" false).2.2.2.2.2.2⟩

/-! C5 -/

theorem obsList_any (st : Store) (pfx : String)
    (h : st.filter (fun kv => pyStartsWith kv.1 pfx) ≠ []) :
    ((obsList st pfx).any (fun c => !c.isEmpty)) = true := by
  rw [obsList]
  cases hm : (st.filter (fun kv => pyStartsWith kv.1 pfx)).map
      (fun kv => (⟨kv.1, kv.2.last_modified, kv.2.size⟩ : EntryMeta)) with
  | nil => exact absurd (List.map_eq_nil_iff.mp hm) h
  | cons a t => exact chunksOf_any_ne 100 a t

theorem obsList_flatten (st : Store) (pfx : String) :
    (obsList st pfx).flatten = (st.filter (fun kv => pyStartsWith kv.1 pfx)).map
      (fun kv => ⟨kv.1, kv.2.last_modified, kv.2.size⟩) := by
  rw [obsList, chunksOf_flatten]

/-- The directory branch of get_contents: a mounted drive whose listing under
the normalized path has at least one entry yields the listing response with
one backend call. -/
theorem get_contents_dir (cs : Codecs) (m : Mgr) (drive path0 : String)
    (b : Binding) (hb : List.lookup drive m.registry = some b)
    (hne : (((List.lookup drive m.remotes).getD []).filter
      (fun kv => pyStartsWith kv.1 (normalize_path path0))) ≠ []) :
    get_contents cs m drive path0 =
      (.ok ⟨.listing ((((List.lookup drive m.remotes).getD []).filter
          (fun kv => pyStartsWith kv.1 (normalize_path path0))).map
          (fun kv => ⟨kv.1, kv.2.last_modified, kv.2.size⟩))⟩, m,
        [.list drive (normalize_path path0)]) := by
  simp only [get_contents, hb, listLoop_start, obsList_any _ _ hne, obsList_flatten,
    Bool.not_true, List.nil_append]
  simp

/-- C5: for every mounted drive and every path whose backend listing under
the normalized path yields at least one entry, get_contents returns the
directory shape, with data the path/last_modified/size triple of every listed
entry, never the single-file shape; the trace is exactly the one listing
call, so no object get or head is issued. -/
theorem c5_listing_dir_shape (cs : Codecs) (m : Mgr) (drive path0 : String)
    (hb : (List.lookup drive m.registry).isSome = true)
    (hne : (((List.lookup drive m.remotes).getD []).filter
      (fun kv => pyStartsWith kv.1 (normalize_path path0))) ≠ []) :
    get_contents cs m drive path0 =
      (.ok ⟨.listing ((((List.lookup drive m.remotes).getD []).filter
          (fun kv => pyStartsWith kv.1 (normalize_path path0))).map
          (fun kv => ⟨kv.1, kv.2.last_modified, kv.2.size⟩))⟩, m,
        [.list drive (normalize_path path0)]) := by
  obtain ⟨b, hb2⟩ := Option.isSome_iff_exists.mp hb
  exact get_contents_dir cs m drive path0 b hb2 hne

/-- C5 witness: the root listing of the concrete mounted drive returns the
directory shape with the single entry and only the listing call. -/
theorem c5_listing_dir_shape_witness :
    (List.lookup "bucket-a" mgrMounted.registry).isSome = true ∧
    get_contents wCodecs mgrMounted "bucket-a" "" =
      (.ok ⟨.listing ((((List.lookup "bucket-a" mgrMounted.remotes).getD []).filter
          (fun kv => pyStartsWith kv.1 (normalize_path ""))).map
          (fun kv => ⟨kv.1, kv.2.last_modified, kv.2.size⟩))⟩, mgrMounted,
        [.list "bucket-a" (normalize_path "")]) :=
  ⟨rfl, c5_listing_dir_shape wCodecs mgrMounted "bucket-a" "" rfl (by decide)⟩

/-! C6 -/

/-- When the format negotiation produces a writable payload on a mounted
drive, save_file overwrite-puts the payload, heads the stripped path, and
echoes the original content with the written size. -/
theorem save_file_put (cs : Codecs) (m : Mgr) (drive path0 : String)
    (content : PyVal) (optFmt cFmt cType : String) (b : Binding)
    (hb : List.lookup drive m.registry = some b) (payload : Payload) (bs : Bytes)
    (hf : formatContent cs content optFmt cFmt cType = .ok payload)
    (hpb : payloadBytes payload = .ok bs) :
    save_file cs m drive path0 content optFmt cFmt cType =
      (.ok ⟨⟨stripSlash path0, content, m.now, bs.length⟩⟩,
       { m with remotes := (aupdate drive
           (aupdate (stripSlash path0) ⟨bs, m.now, bs.length⟩
             ((List.lookup drive m.remotes).getD [])) m.remotes) },
       [.put drive (stripSlash path0) payload "overwrite",
        .head drive (stripSlash path0)]) := by
  simp only [save_file, hf, hb, hpb]
  rw [lookup_aupdate_self]
  simp

/-- C6: the bytes written by save_file are fixed by the format negotiation.
With options format json the content is serialized by the 2-space-indented
dump and UTF-8 encoded; with options format base64 and either a base64
content format or a PDF content type the content is base64-decoded into the
raw byte buffer (the 512-byte chunking has no effect on the written bytes);
with options format text the content is UTF-8 encoded; otherwise the content
is passed through to the put unmodified.  In every case the write uses
overwrite mode and is followed by one head. -/
theorem c6_save_format_negotiation (cs : Codecs) (m : Mgr) (drive path0 : String)
    (hb : (List.lookup drive m.registry).isSome = true) :
    (∀ content cFmt cType,
      (save_file cs m drive path0 content "json" cFmt cType).2.2 =
        [.put drive (stripSlash path0)
          (.bytes (utf8Encode (cs.dumpsIndent2 content))) "overwrite",
         .head drive (stripSlash path0)] ∧
      (save_file cs m drive path0 content "json" cFmt cType).1 =
        .ok ⟨⟨stripSlash path0, content, m.now,
          (utf8Encode (cs.dumpsIndent2 content)).length⟩⟩) ∧
    (∀ s cFmt cType, cFmt = "base64" ∨ cType = "PDF" →
      (save_file cs m drive path0 (.str s) "base64" cFmt cType).2.2 =
        [.put drive (stripSlash path0) (.bytes (cs.b64decode s)) "overwrite",
         .head drive (stripSlash path0)] ∧
      (save_file cs m drive path0 (.str s) "base64" cFmt cType).1 =
        .ok ⟨⟨stripSlash path0, .str s, m.now, (cs.b64decode s).length⟩⟩) ∧
    (∀ s cFmt cType,
      (save_file cs m drive path0 (.str s) "text" cFmt cType).2.2 =
        [.put drive (stripSlash path0) (.bytes (utf8Encode s)) "overwrite",
         .head drive (stripSlash path0)] ∧
      (save_file cs m drive path0 (.str s) "text" cFmt cType).1 =
        .ok ⟨⟨stripSlash path0, .str s, m.now, (utf8Encode s).length⟩⟩) ∧
    (∀ bts optFmt cFmt cType, optFmt ≠ "json" → optFmt ≠ "text" →
      ¬(optFmt = "base64" ∧ (cFmt = "base64" ∨ cType = "PDF")) →
      (save_file cs m drive path0 (.bytes bts) optFmt cFmt cType).2.2 =
        [.put drive (stripSlash path0) (.pyObj (.bytes bts)) "overwrite",
         .head drive (stripSlash path0)] ∧
      (save_file cs m drive path0 (.bytes bts) optFmt cFmt cType).1 =
        .ok ⟨⟨stripSlash path0, .bytes bts, m.now, bts.length⟩⟩) := by
  obtain ⟨b, hb2⟩ := Option.isSome_iff_exists.mp hb
  refine ⟨?_, ?_, ?_, ?_⟩
  · intro content cFmt cType
    have hf : formatContent cs content "json" cFmt cType =
        .ok (.bytes (utf8Encode (cs.dumpsIndent2 content))) := rfl
    have h := save_file_put cs m drive path0 content "json" cFmt cType b hb2 _ _ hf rfl
    rw [h]
    exact ⟨rfl, rfl⟩
  · intro s cFmt cType hor
    have hf : formatContent cs (.str s) "base64" cFmt cType =
        .ok (.bytes (cs.b64decode s)) := by
      unfold formatContent
      rw [if_neg (by decide), if_pos ⟨rfl, hor⟩]
      simp [chunksOf_flatten]
    have h := save_file_put cs m drive path0 (.str s) "base64" cFmt cType b hb2 _ _ hf rfl
    rw [h]
    exact ⟨rfl, rfl⟩
  · intro s cFmt cType
    have hf : formatContent cs (.str s) "text" cFmt cType =
        .ok (.bytes (utf8Encode s)) := rfl
    have h := save_file_put cs m drive path0 (.str s) "text" cFmt cType b hb2 _ _ hf rfl
    rw [h]
    exact ⟨rfl, rfl⟩
  · intro bts optFmt cFmt cType h1 h3 h2
    have hf : formatContent cs (.bytes bts) optFmt cFmt cType =
        .ok (.pyObj (.bytes bts)) := by
      unfold formatContent
      rw [if_neg h1, if_neg h2, if_neg h3]
    have h := save_file_put cs m drive path0 (.bytes bts) optFmt cFmt cType b hb2 _ _ hf rfl
    rw [h]
    exact ⟨rfl, rfl⟩

/-- C6 witness: the base64 branch of the negotiation on the concrete mounted
drive writes the decoded byte buffer with overwrite mode followed by head. -/
theorem c6_save_format_negotiation_witness :
    (List.lookup "bucket-a" mgrMounted.registry).isSome = true ∧
    (save_file wCodecs mgrMounted "bucket-a" "doc.bin" (.str "QUJD")
        "base64" "base64" "notebook").2.2 =
      [.put "bucket-a" (stripSlash "doc.bin")
        (.bytes (wCodecs.b64decode "QUJD")) "overwrite",
       .head "bucket-a" (stripSlash "doc.bin")] ∧
    (save_file wCodecs mgrMounted "bucket-a" "doc.bin" (.str "QUJD")
        "base64" "base64" "notebook").1 =
      .ok ⟨⟨stripSlash "doc.bin", .str "QUJD", mgrMounted.now,
        (wCodecs.b64decode "QUJD").length⟩⟩ :=
  ⟨rfl,
   ((c6_save_format_negotiation wCodecs mgrMounted "bucket-a" "doc.bin" rfl).2.1
     "QUJD" "base64" "notebook" (Or.inl rfl)).1,
   ((c6_save_format_negotiation wCodecs mgrMounted "bucket-a" "doc.bin" rfl).2.1
     "QUJD" "base64" "notebook" (Or.inl rfl)).2⟩

/-! C7 -/

/-- On a mounted s3 drive, _create_empty_directory creates the zero-byte
marker object at key path ++ "/" through the boto client (caching the client
for the binding location) and records exactly the one marker put. -/
theorem createEmptyDirectory_ok (m : Mgr) (drive path : String) (b : Binding)
    (hb : List.lookup drive m.registry = some b) (hs3 : m.config.provider = "s3") :
    ∃ cl : List String,
      createEmptyDirectory m drive path =
        (.ok (),
         { m with s3clients := cl,
                  remotes := (aupdate drive
                    (aupdate (path ++ "/") ⟨[], m.now, 0⟩
                      ((List.lookup drive m.remotes).getD [])) m.remotes) },
         [.s3putObject drive (path ++ "/")]) := by
  by_cases hc : b.location ∈ m.s3clients
  · exact ⟨m.s3clients, by simp [createEmptyDirectory, hb, hs3, hc]⟩
  · exact ⟨m.s3clients ++ [b.location], by simp [createEmptyDirectory, hb, hs3, hc]⟩

/-- new_file with is_dir true on a mounted s3 drive: marker creation, then a
head on the stripped path whose outcome decides the response. -/
theorem new_file_dir (m : Mgr) (drive path0 : String) (b : Binding)
    (hb : List.lookup drive m.registry = some b) (hs3 : m.config.provider = "s3") :
    ∃ cl : List String,
      new_file m drive path0 true =
        ((match List.lookup (stripSlash path0) ((List.lookup drive m.remotes).getD []) with
          | none => .error (createObjErr (excMsg (.notFound (stripSlash path0))))
          | some o => .ok ⟨⟨stripSlash path0, "", o.last_modified, o.size⟩⟩),
         { m with s3clients := cl,
                  remotes := (aupdate drive
                    (aupdate (stripSlash path0 ++ "/") ⟨[], m.now, 0⟩
                      ((List.lookup drive m.remotes).getD [])) m.remotes) },
         [.s3putObject drive (stripSlash path0 ++ "/"), .head drive (stripSlash path0)]) := by
  obtain ⟨cl, hcd⟩ := createEmptyDirectory_ok m drive (stripSlash path0) b hb hs3
  refine ⟨cl, ?_⟩
  have hcond : ¬(true = false ∨ m.config.provider ≠ "s3") := by simp [hs3]
  simp only [new_file, if_neg hcond, hcd]
  rw [lookup_aupdate_self]
  simp only [Option.getD_some]
  rw [lookup_aupdate_ne _ _ (Ne.symm (append_slash_ne (stripSlash path0)))]
  cases List.lookup (stripSlash path0) ((List.lookup drive m.remotes).getD []) <;> simp

/-- C7: creating a directory on a mounted s3 drive.  new_file creates the
out-of-band marker object at key p ++ "/" (the trace shows the boto marker
put and no plain put of p), always follows with a head on p, and on success
(the head finding the key) returns the path, last_modified and size data; a
subsequent get_contents on p reports a non-empty directory listing. -/
theorem c7_new_dir_marker (cs : Codecs) (m : Mgr) (drive path0 : String)
    (hb : (List.lookup drive m.registry).isSome = true)
    (hs3 : m.config.provider = "s3") :
    (new_file m drive path0 true).2.2 =
      [.s3putObject drive (stripSlash path0 ++ "/"), .head drive (stripSlash path0)] ∧
    List.lookup drive (new_file m drive path0 true).2.1.remotes =
      some (aupdate (stripSlash path0 ++ "/") ⟨[], m.now, 0⟩
        ((List.lookup drive m.remotes).getD [])) ∧
    List.lookup (stripSlash path0 ++ "/")
      (aupdate (stripSlash path0 ++ "/") ⟨[], m.now, 0⟩
        ((List.lookup drive m.remotes).getD [])) = some ⟨[], m.now, 0⟩ ∧
    (new_file m drive path0 true).1 =
      (match List.lookup (stripSlash path0) ((List.lookup drive m.remotes).getD []) with
        | none => .error (createObjErr (excMsg (.notFound (stripSlash path0))))
        | some o => .ok ⟨⟨stripSlash path0, "", o.last_modified, o.size⟩⟩) ∧
    (∃ entries, entries ≠ [] ∧
      (get_contents cs (new_file m drive path0 true).2.1 drive (stripSlash path0)).1 =
        .ok ⟨.listing entries⟩) := by
  obtain ⟨b, hb2⟩ := Option.isSome_iff_exists.mp hb
  obtain ⟨cl, hnf⟩ := new_file_dir m drive path0 b hb2 hs3
  set p := stripSlash path0 with hp
  set st := (List.lookup drive m.remotes).getD [] with hst
  set st2 := aupdate (p ++ "/") ⟨[], m.now, 0⟩ st with hst2
  have h21 : (new_file m drive path0 true).2.1 =
      { m with s3clients := cl, remotes := (aupdate drive st2 m.remotes) } := by
    rw [hnf]
  have hb3 : List.lookup drive
      ({ m with s3clients := cl, remotes := (aupdate drive st2 m.remotes) } : Mgr).registry =
      some b := hb2
  have hrem : ((List.lookup drive
      ({ m with s3clients := cl, remotes := (aupdate drive st2 m.remotes) } : Mgr).remotes).getD [])
      = st2 := by
    show ((List.lookup drive (aupdate drive st2 m.remotes)).getD []) = st2
    rw [lookup_aupdate_self]
    rfl
  have hnorm : normalize_path p = p := by rw [hp]; exact normalize_path_stripSlash path0
  have hfil : st2.filter (fun kv => pyStartsWith kv.1 (normalize_path p)) ≠ [] := by
    rw [hnorm]
    intro hnil
    have hm2 : (p ++ "/", (⟨[], m.now, 0⟩ : Obj)) ∈
        st2.filter (fun kv => pyStartsWith kv.1 p) :=
      List.mem_filter.mpr ⟨by rw [hst2]; exact mem_aupdate _ _ _, pyStartsWith_append p "/"⟩
    rw [hnil] at hm2
    simp at hm2
  have hgc := get_contents_dir cs
    { m with s3clients := cl, remotes := (aupdate drive st2 m.remotes) } drive p b hb3
    (by rw [hrem]; exact hfil)
  rw [hrem] at hgc
  refine ⟨by rw [hnf], ?_, ?_, by rw [hnf], ?_⟩
  · rw [h21]
    show List.lookup drive (aupdate drive st2 m.remotes) = some st2
    rw [lookup_aupdate_self]
  · rw [hst2]; exact lookup_aupdate_self _ _ _
  · refine ⟨(st2.filter (fun kv => pyStartsWith kv.1 (normalize_path p))).map
      (fun kv => ⟨kv.1, kv.2.last_modified, kv.2.size⟩), ?_, ?_⟩
    · intro hmn
      exact hfil (List.map_eq_nil_iff.mp hmn)
    · rw [h21, hgc]

/-- C7 witness: new_file on the concrete mounted drive with directory dir1
creates the marker dir1/, heads dir1, and get_contents afterwards reports a
directory. -/
theorem c7_new_dir_marker_witness :
    (List.lookup "bucket-a" mgrMounted.registry).isSome = true ∧
    mgrMounted.config.provider = "s3" ∧
    (new_file mgrMounted "bucket-a" "dir1" true).2.2 =
      [.s3putObject "bucket-a" (stripSlash "dir1" ++ "/"),
       .head "bucket-a" (stripSlash "dir1")] ∧
    (∃ entries, entries ≠ [] ∧
      (get_contents wCodecs (new_file mgrMounted "bucket-a" "dir1" true).2.1
          "bucket-a" (stripSlash "dir1")).1 = .ok ⟨.listing entries⟩) :=
  ⟨rfl, rfl,
   (c7_new_dir_marker wCodecs mgrMounted "bucket-a" "dir1" rfl rfl).1,
   (c7_new_dir_marker wCodecs mgrMounted "bucket-a" "dir1" rfl rfl).2.2.2.2⟩

/-! C10 -/

/-- C10: rename_file and copy_file normalize only the source path; for every
destination argument, including slashed ones, the destination is handed to
the backend primitive verbatim (visible in the trace) and echoed back
verbatim as the response path. -/
theorem c10_destination_verbatim (m : Mgr) (drive path0 dst : String)
    (hb : (List.lookup drive m.registry).isSome = true) (obj : Obj)
    (hsrc : List.lookup (stripSlash path0)
      ((List.lookup drive m.remotes).getD []) = some obj) :
    (rename_file m drive path0 dst).2.2 =
      [.rename drive (stripSlash path0) dst, .head drive dst] ∧
    (rename_file m drive path0 dst).1 = .ok ⟨⟨dst, obj.last_modified, obj.size⟩⟩ ∧
    (copy_file m drive path0 dst).2.2 =
      [.copy drive (stripSlash path0) dst, .head drive dst] ∧
    (copy_file m drive path0 dst).1 = .ok ⟨⟨dst, obj.last_modified, obj.size⟩⟩ := by
  obtain ⟨b, hb2⟩ := Option.isSome_iff_exists.mp hb
  have hr : List.lookup dst (aupdate dst obj
      (aremove (stripSlash path0) ((List.lookup drive m.remotes).getD []))) = some obj :=
    lookup_aupdate_self _ _ _
  have hcp : List.lookup dst (aupdate dst obj
      ((List.lookup drive m.remotes).getD [])) = some obj :=
    lookup_aupdate_self _ _ _
  refine ⟨?_, ?_, ?_, ?_⟩ <;> simp [rename_file, copy_file, hb2, hsrc, hr, hcp]

/-- C10 witness: renaming and copying file.txt of the concrete mounted drive
to the slashed destination /x/y/ leaves the destination unnormalized in both
the backend call and the response. -/
theorem c10_destination_verbatim_witness :
    (List.lookup "bucket-a" mgrMounted.registry).isSome = true ∧
    List.lookup (stripSlash "file.txt")
      ((List.lookup "bucket-a" mgrMounted.remotes).getD []) =
      some ⟨[104, 105], "2026-01-01T00:00:00+00:00", 2⟩ ∧
    (rename_file mgrMounted "bucket-a" "file.txt" "/x/y/").2.2 =
      [.rename "bucket-a" (stripSlash "file.txt") "/x/y/", .head "bucket-a" "/x/y/"] ∧
    (rename_file mgrMounted "bucket-a" "file.txt" "/x/y/").1 =
      .ok ⟨⟨"/x/y/", "2026-01-01T00:00:00+00:00", 2⟩⟩ ∧
    (copy_file mgrMounted "bucket-a" "file.txt" "/x/y/").1 =
      .ok ⟨⟨"/x/y/", "2026-01-01T00:00:00+00:00", 2⟩⟩ :=
  ⟨rfl, rfl,
   (c10_destination_verbatim mgrMounted "bucket-a" "file.txt" "/x/y/" rfl
     ⟨[104, 105], "2026-01-01T00:00:00+00:00", 2⟩ rfl).1,
   (c10_destination_verbatim mgrMounted "bucket-a" "file.txt" "/x/y/" rfl
     ⟨[104, 105], "2026-01-01T00:00:00+00:00", 2⟩ rfl).2.1,
   (c10_destination_verbatim mgrMounted "bucket-a" "file.txt" "/x/y/" rfl
     ⟨[104, 105], "2026-01-01T00:00:00+00:00", 2⟩ rfl).2.2.2⟩

/-! C8 -/

/-- The first missing credential in the check order of _call_provider. -/
def firstMissingCred (cfg : Config) : Option String :=
  if credPresent cfg.session_token = false then some "session token"
  else if credPresent cfg.access_key_id = false then some "access key id"
  else if credPresent cfg.secret_access_key = false then some "secret access key"
  else none

/-- The fail-fast message naming a missing credential (manager.py lines
558-574). -/
def credMsg : String → String
  | "session token" => "No session token specified. Please set DriversConfig.session_token in your user jupyter_server_config file."
  | "access key id" => "No access key id specified. Please set DriversConfig.access_key_id in your user jupyter_server_config file."
  | _ => "No secret access key specified. Please set DriversConfig.secret_access_key in your user jupyter_server_config file."

/-- The configured credential value a given name refers to. -/
def credField (cfg : Config) : String → Option String
  | "session token" => cfg.session_token
  | "access key id" => cfg.access_key_id
  | _ => cfg.secret_access_key

/-- C8: whenever any of the session token, access key id or secret access key
is missing, _call_provider fails with the HTTP 400 error naming the first
absent credential in check order, that credential is indeed absent, and no
request is constructed or dispatched: the trace is empty. -/
theorem c8_missing_credentials_fail_fast (cs : Codecs) (cfg : Config)
    (chain : List FetchOutcome) (url : String) (loadJson : Bool) (method : String)
    (body : Option JVal) (params headers : Option (List (String × String)))
    (hasPagination : Bool) (missing : String)
    (h : firstMissingCred cfg = some missing) :
    callProvider cs cfg chain url loadJson method body params headers hasPagination =
      (.error ⟨400, credMsg missing⟩, []) ∧
    credPresent (credField cfg missing) = false := by
  rw [firstMissingCred] at h
  by_cases h1 : credPresent cfg.session_token = false
  · rw [if_pos h1] at h
    injection h with h
    subst h
    exact ⟨by simp [callProvider, h1, credMsg], by simpa [credField] using h1⟩
  · rw [if_neg h1] at h
    by_cases h2 : credPresent cfg.access_key_id = false
    · rw [if_pos h2] at h
      injection h with h
      subst h
      exact ⟨by simp [callProvider, h1, h2, credMsg], by simpa [credField] using h2⟩
    · rw [if_neg h2] at h
      by_cases h3 : credPresent cfg.secret_access_key = false
      · rw [if_pos h3] at h
        injection h with h
        subst h
        exact ⟨by simp [callProvider, h1, h2, h3, credMsg], by simpa [credField] using h3⟩
      · rw [if_neg h3] at h
        exact absurd h (by simp)

/-- A configuration whose session token is absent. -/
def cfgNoToken : Config :=
  ⟨"s3", some "AKIA", some "SECRET", none, "https://api.example.com"⟩

/-- C8 witness: with no session token configured, the provider call fails
fast naming the session token, with an empty trace. -/
theorem c8_missing_credentials_fail_fast_witness :
    firstMissingCred cfgNoToken = some "session token" ∧
    callProvider wCodecs cfgNoToken [] "drives" true "GET" none none none true =
      (.error ⟨400, credMsg "session token"⟩, []) ∧
    credPresent (credField cfgNoToken "session token") = false :=
  ⟨rfl,
   (c8_missing_credentials_fail_fast wCodecs cfgNoToken [] "drives" true "GET"
     none none none true "session token" rfl).1,
   (c8_missing_credentials_fail_fast wCodecs cfgNoToken [] "drives" true "GET"
     none none none true "session token" rfl).2⟩

/-! C2 -/

theorem toUpper_GET : pyUpper "GET" = "GET" := by decide

theorem toLower_GET : pyLower "GET" = "get" := by decide

/-- A well-formed paginated response chain: every page decodes to a JSON
value and advertises the next page url through a link header entry whose rel
equals next, except the last page which advertises no next relation. -/
inductive GoodChain (loads : String → Option JVal) :
    List FetchOutcome → List String → List JVal → Prop where
  | last (bdy : String) (link : Option String) (v : JVal)
      (hv : loads bdy = some v) (hl : linkNextUrl link = .ok none) :
      GoodChain loads [.ok (some bdy) link] [] [v]
  | cons (bdy : String) (link : Option String) (v : JVal) (u : String)
      (rest : List FetchOutcome) (us : List String) (vs : List JVal)
      (hv : loads bdy = some v) (hl : linkNextUrl link = .ok (some u))
      (hrest : GoodChain loads rest us vs) :
      GoodChain loads (.ok (some bdy) link :: rest) (u :: us) (v :: vs)

/-- The recursive calls of the paginated client: with pagination disabled the
next urls are fetched verbatim (no per_page parameter is appended) and the
pages are concatenated after list coercion. -/
theorem callProvider_chain_aux (cs : Codecs) (cfg : Config)
    (h1 : credPresent cfg.session_token = true)
    (h2 : credPresent cfg.access_key_id = true)
    (h3 : credPresent cfg.secret_access_key = true) :
    ∀ (chain : List FetchOutcome) (us : List String) (vs : List JVal),
      GoodChain cs.jsonLoads chain us vs → ∀ url, ∃ w : JVal,
      callProvider cs cfg chain url true "GET" none none none false =
        (.ok (.json w),
         .providerFetch "GET" (resolveUrl cfg url) ::
           us.map (fun u => .providerFetch "GET" (resolveUrl cfg u))) ∧
      toElems w = (vs.map toElems).flatten := by
  intro chain us vs hg
  induction hg with
  | last bdy link v hv hl =>
    intro url
    refine ⟨v, ?_, by simp⟩
    simp [callProvider, h1, h2, h3, hv, hl, toUpper_GET, toLower_GET]
  | cons bdy link v u rest us vs hv hl hrest ih =>
    intro url
    obtain ⟨w, hw, hele⟩ := ih u
    refine ⟨.jarr (toElems v ++ toElems w), ?_, ?_⟩
    · simp [callProvider, h1, h2, h3, hv, hl, toUpper_GET, toLower_GET, hw]
    · have h4 : toElems (JVal.jarr (toElems v ++ toElems w)) = toElems v ++ toElems w := rfl
      rw [h4, hele]
      simp

/-- C2: for every chain of JSON GET responses linked by link header entries
whose rel equals next, the paginated call returns the in-order concatenation
of all pages with no entry duplicated or dropped, each page and the recursive
result being coerced to a one-element sequence when not already a sequence;
the next url is followed recursively with pagination disabled (the recursive
fetches in the trace carry the next urls verbatim, without the per_page
parameter appended to the first request), and recursion terminates when no
next relation is present. -/
theorem c2_pagination_concatenation (cs : Codecs) (cfg : Config)
    (h1 : credPresent cfg.session_token = true)
    (h2 : credPresent cfg.access_key_id = true)
    (h3 : credPresent cfg.secret_access_key = true)
    (chain : List FetchOutcome) (us : List String) (vs : List JVal)
    (url : String) (params : Option (List (String × String)))
    (hg : GoodChain cs.jsonLoads chain us vs) :
    callProvider cs cfg chain url true "GET" none params none true =
      (.ok (.json (.jarr ((vs.map toElems).flatten))),
       .providerFetch "GET"
           (urlConcat (resolveUrl cfg url) (aupdate "per_page" "100" (params.getD []))) ::
         us.map (fun u => .providerFetch "GET" (resolveUrl cfg u))) := by
  cases hg with
  | last bdy link v hv hl =>
    rcases v with s | n | xs | kvs <;>
      simp [callProvider, h1, h2, h3, hv, hl, toUpper_GET, toLower_GET, toElems, isArr]
  | cons bdy link v u rest us vs hv hl hrest =>
    obtain ⟨w, hw, hele⟩ := callProvider_chain_aux cs cfg h1 h2 h3 rest us vs hrest u
    simp [callProvider, h1, h2, h3, hv, hl, toUpper_GET, toLower_GET, hw, hele]

/-- The first two pages of the pagination witness advertise the next page. -/
def wLink1 : String := "<https://api.example.com/items?page=2>; rel=\"next\""

def wLink2 : String := "<https://api.example.com/items?page=3>; rel=\"next\""

/-- A simulated three-page response chain linked via rel next. -/
def wChain : List FetchOutcome :=
  [.ok (some "p1") (some wLink1), .ok (some "p2") (some wLink2), .ok (some "p3") none]

/-- C2 witness: the three-page chain yields the in-order concatenation of all
pages' items, and the recursive fetches carry the advertised urls verbatim
while the first request alone carries the per_page parameter. -/
theorem c2_pagination_concatenation_witness :
    callProvider wCodecs cfg0 wChain "items" true "GET" none none none true =
      (.ok (.json (.jarr [.jnum 1, .jnum 2, .jnum 3, .jnum 4, .jnum 5])),
       [.providerFetch "GET" "https://api.example.com/items?per_page=100",
        .providerFetch "GET" "https://api.example.com/items?page=2",
        .providerFetch "GET" "https://api.example.com/items?page=3"]) := by
  have hg : GoodChain wCodecs.jsonLoads wChain
      ["https://api.example.com/items?page=2", "https://api.example.com/items?page=3"]
      [.jarr [.jnum 1, .jnum 2], .jarr [.jnum 3], .jarr [.jnum 4, .jnum 5]] := by
    refine .cons _ _ _ _ _ _ _ rfl ?_ (.cons _ _ _ _ _ _ _ rfl ?_ (.last _ _ _ rfl rfl))
    · rfl
    · rfl
  exact c2_pagination_concatenation wCodecs cfg0 rfl rfl rfl wChain _ _ "items" none hg

end JupyterDrives
